import Mathlib

/-!
Shallow embedding of the smart-grainer rendering pipeline and selection
editor (frontend of a granular-synthesis sampler).

Conventions of the embedding:
* JS numbers are modelled as rationals (`ℚ`); the properties checked here
  do not depend on binary floating-point rounding.
* `Float32Array` buffers are modelled as `List ℚ`.
* JS exceptions are modelled with `Except String`.
* The opaque WASM synthesis engine is modelled as an abstract state machine
  (`WasmModule σ`): its four entry points are uninterpreted functions over an
  abstract engine state `σ` together with an f32 view of its linear memory.
-/

namespace Grainer

/-- Parameter snapshot passed to the engine; mirrors the `GranularParams`
interface of the WASM wrapper module (17 numeric fields). -/
structure GranularParams where
  selectionStartSampleIx : ℚ
  selectionEndSampleIx : ℚ
  grainSize : ℚ
  voice1FilterCutoff : ℚ
  voice2FilterCutoff : ℚ
  linearSlopeLength : ℚ
  slopeLinearity : ℚ
  voice1MovementSamplesPerSample : ℚ
  voice2MovementSamplesPerSample : ℚ
  voice1SampleSpeedRatio : ℚ
  voice2SampleSpeedRatio : ℚ
  voice1SamplesBetweenGrains : ℚ
  voice2SamplesBetweenGrains : ℚ
  voice1Gain : ℚ
  voice2Gain : ℚ
  voice1GrainStartRandomnessSamples : ℚ
  voice2GrainStartRandomnessSamples : ℚ
  deriving DecidableEq

/-- The parameter values in the positional order in which
`GranularInstance.renderFrame` passes them to `render_granular`
(after the instance pointer argument). -/
def renderGranularArgs (p : GranularParams) : List ℚ :=
  [ p.selectionStartSampleIx
  , p.selectionEndSampleIx
  , p.grainSize
  , p.voice1FilterCutoff
  , p.voice2FilterCutoff
  , p.linearSlopeLength
  , p.slopeLinearity
  , p.voice1MovementSamplesPerSample
  , p.voice2MovementSamplesPerSample
  , p.voice1SampleSpeedRatio
  , p.voice2SampleSpeedRatio
  , p.voice1SamplesBetweenGrains
  , p.voice2SamplesBetweenGrains
  , p.voice1Gain
  , p.voice2Gain
  , p.voice1GrainStartRandomnessSamples
  , p.voice2GrainStartRandomnessSamples ]

/-- Decoded multi-channel sample buffer (Web Audio `AudioBuffer`):
a list of channels, each a list of samples. -/
structure AudioBufferModel where
  channels : List (List ℚ)
  deriving DecidableEq

/-- `buffer.numberOfChannels`. -/
def AudioBufferModel.numberOfChannels (b : AudioBufferModel) : ℕ :=
  b.channels.length

/-- `buffer.getChannelData(i)`. -/
def AudioBufferModel.getChannelData (b : AudioBufferModel) (i : ℕ) : List ℚ :=
  b.channels.getD i []

/-- `buffer.length` (samples per channel, read off channel 0). -/
def AudioBufferModel.length (b : AudioBufferModel) : ℕ :=
  (b.getChannelData 0).length

/-- `audioBufferToFloat32Array` from `utils/audio.ts`: mono buffers are
returned directly; otherwise channel 0 and channel 1 are mixed as
`(left[i] + right[i]) / 2`.  Out-of-range reads default to 0. -/
def audioBufferToFloat32Array (buffer : AudioBufferModel) : List ℚ :=
  if buffer.numberOfChannels = 1 then
    buffer.getChannelData 0
  else
    let left := buffer.getChannelData 0
    let right := if 1 < buffer.numberOfChannels then buffer.getChannelData 1 else left
    (List.range left.length).map fun i => (left.getD i 0 + right.getD i 0) / 2

/-- Modelled from the spec (for comparison with `audioBufferToFloat32Array`):
"the core downmixes to mono via per-sample channel averaging" — output
sample `i` is the average over all channels of their sample `i`. -/
def audioBufferToMonoSpec (buffer : AudioBufferModel) : List ℚ :=
  (List.range buffer.length).map fun i =>
    (buffer.channels.map fun ch => ch.getD i 0).sum / buffer.numberOfChannels

/-- Handle object of the WASM wrapper class `GranularInstance`:
`instancePtr` is `none` once the instance has been freed. -/
structure GranularInstance where
  instancePtr : Option ℕ
  deriving DecidableEq

/-- Abstract model of the WASM engine module: the four exported entry points
as uninterpreted state transformers over an engine state `σ`, plus an
f32-indexed view of the module's linear memory. -/
structure WasmModule (σ : Type) where
  get_granular_waveform_ptr : σ → ℕ → ℕ → ℕ × σ
  render_granular : σ → ℕ → List ℚ → ℕ × σ
  free_granular_instance : σ → ℕ → σ
  memF32 : σ → ℕ → ℚ
  memWriteF32 : σ → ℕ → ℚ → σ

/-- `GranularInstance.setWaveform`: throws if the instance was freed,
otherwise asks the engine for a waveform pointer and copies the samples
into engine memory at `ptr / 4` (f32 element offset). -/
def GranularInstance.setWaveform {σ : Type} (m : WasmModule σ)
    (inst : GranularInstance) (s : σ) (waveform : List ℚ) : Except String σ :=
  match inst.instancePtr with
  | none => .error "Granular instance has been freed"
  | some p =>
    let len := waveform.length
    let r := m.get_granular_waveform_ptr s p len
    let offset := r.1 / 4
    .ok ((List.range len).foldl
      (fun acc i => m.memWriteF32 acc (offset + i) (waveform.getD i 0)) r.2)

/-- `GranularInstance.renderFrame`: throws if the instance was freed,
otherwise calls `render_granular` with the 17 parameter values by position
and reads 128 f32 samples back from engine memory at `outputPtr / 4`. -/
def GranularInstance.renderFrame {σ : Type} (m : WasmModule σ)
    (inst : GranularInstance) (s : σ) (params : GranularParams) :
    Except String (List ℚ × σ) :=
  match inst.instancePtr with
  | none => .error "Granular instance has been freed"
  | some p =>
    let r := m.render_granular s p (renderGranularArgs params)
    let offset := r.1 / 4
    .ok ((List.range 128).map (fun i => m.memF32 r.2 (offset + i)), r.2)

/-- `GranularInstance.free`: frees the engine-side instance when the pointer
is still live and nulls it; on an already-freed handle the guard makes the
call a no-op.  The source method has no throwing path, so the result is
always `.ok`. -/
def GranularInstance.free {σ : Type} (m : WasmModule σ)
    (inst : GranularInstance) (s : σ) : Except String (GranularInstance × σ) :=
  match inst.instancePtr with
  | some p => .ok ({ instancePtr := none }, m.free_granular_instance s p)
  | none => .ok (inst, s)

/-- The Zustand store state (`useGranularStore`), data fields only.
`audioContext`, `sourceNode` and `workletNode` are opaque handles. -/
structure GranularState where
  audioBuffer : Option AudioBufferModel
  processedBuffer : Option (List ℚ)
  granularInstance : Option GranularInstance
  selectionStartSampleIx : ℚ
  selectionEndSampleIx : ℚ
  grainSize : ℚ
  voice1FilterCutoff : ℚ
  voice2FilterCutoff : ℚ
  linearSlopeLength : ℚ
  slopeLinearity : ℚ
  voice1MovementSamplesPerSample : ℚ
  voice2MovementSamplesPerSample : ℚ
  voice1SampleSpeedRatio : ℚ
  voice2SampleSpeedRatio : ℚ
  voice1SamplesBetweenGrains : ℚ
  voice2SamplesBetweenGrains : ℚ
  voice1Gain : ℚ
  voice2Gain : ℚ
  voice1GrainStartRandomnessSamples : ℚ
  voice2GrainStartRandomnessSamples : ℚ
  density : ℚ
  isPlaying : Bool
  audioContext : Option ℕ
  sourceNode : Option ℕ
  workletNode : Option ℕ
  deriving DecidableEq

/-- The store's `initialState` literal. -/
def initialState : GranularState where
  audioBuffer := none
  processedBuffer := none
  granularInstance := none
  selectionStartSampleIx := 0
  selectionEndSampleIx := 0
  grainSize := 800
  voice1FilterCutoff := 0
  voice2FilterCutoff := 0
  linearSlopeLength := 1/2
  slopeLinearity := 1/2
  voice1MovementSamplesPerSample := 1/10
  voice2MovementSamplesPerSample := 1/10
  voice1SampleSpeedRatio := 1
  voice2SampleSpeedRatio := 1
  voice1SamplesBetweenGrains := 400
  voice2SamplesBetweenGrains := 400
  voice1Gain := 1
  voice2Gain := 1
  voice1GrainStartRandomnessSamples := 200
  voice2GrainStartRandomnessSamples := 0
  density := 20
  isPlaying := false
  audioContext := none
  sourceNode := none
  workletNode := none

/-- `setAudioBuffer` action: stores the buffer and, when it is non-null,
resets the selection to the full new range `[0, buffer.length]`. -/
def setAudioBuffer (s : GranularState) (buffer : Option AudioBufferModel) :
    GranularState :=
  match buffer with
  | some b =>
    { s with audioBuffer := buffer
             selectionStartSampleIx := 0
             selectionEndSampleIx := (b.length : ℚ) }
  | none => { s with audioBuffer := buffer }

/-- `setDensity` action. -/
def setDensity (s : GranularState) (v : ℚ) : GranularState :=
  { s with density := v }

/-- `setIsPlaying` action. -/
def setIsPlaying (s : GranularState) (v : Bool) : GranularState :=
  { s with isPlaying := v }

/-- `setAudioContext` action. -/
def setAudioContext (s : GranularState) (v : Option ℕ) : GranularState :=
  { s with audioContext := v }

/-- `setSourceNode` action. -/
def setSourceNode (s : GranularState) (v : Option ℕ) : GranularState :=
  { s with sourceNode := v }

/-- `setWorkletNode` action. -/
def setWorkletNode (s : GranularState) (v : Option ℕ) : GranularState :=
  { s with workletNode := v }

/-- `setGranularInstance` action. -/
def setGranularInstance (s : GranularState) (v : Option GranularInstance) :
    GranularState :=
  { s with granularInstance := v }

/-- `getGranularParams`: copies the 17 engine parameter fields out of the
store state into a snapshot. -/
def getGranularParams (state : GranularState) : GranularParams where
  selectionStartSampleIx := state.selectionStartSampleIx
  selectionEndSampleIx := state.selectionEndSampleIx
  grainSize := state.grainSize
  voice1FilterCutoff := state.voice1FilterCutoff
  voice2FilterCutoff := state.voice2FilterCutoff
  linearSlopeLength := state.linearSlopeLength
  slopeLinearity := state.slopeLinearity
  voice1MovementSamplesPerSample := state.voice1MovementSamplesPerSample
  voice2MovementSamplesPerSample := state.voice2MovementSamplesPerSample
  voice1SampleSpeedRatio := state.voice1SampleSpeedRatio
  voice2SampleSpeedRatio := state.voice2SampleSpeedRatio
  voice1SamplesBetweenGrains := state.voice1SamplesBetweenGrains
  voice2SamplesBetweenGrains := state.voice2SamplesBetweenGrains
  voice1Gain := state.voice1Gain
  voice2Gain := state.voice2Gain
  voice1GrainStartRandomnessSamples := state.voice1GrainStartRandomnessSamples
  voice2GrainStartRandomnessSamples := state.voice2GrainStartRandomnessSamples

/-- The render loop of `processOffline`: `n` sequential `renderFrame` calls,
collecting the produced frames in call order.  A thrown error aborts the
loop (JS exception propagation). -/
def renderLoop {σ : Type} (m : WasmModule σ) (inst : GranularInstance)
    (params : GranularParams) : ℕ → σ → Except String (List (List ℚ) × σ)
  | 0, s => .ok ([], s)
  | Nat.succ n, s =>
    match GranularInstance.renderFrame m inst s params with
    | .error e => .error e
    | .ok (frame, s1) =>
      match renderLoop m inst params n s1 with
      | .error e => .error e
      | .ok (frames, s2) => .ok (frame :: frames, s2)

/-- `processOffline` from `GranularControl.tsx`: guard on instance, buffer
and WASM readiness (early return modelled as `none`); downmix the audio
buffer; `numFrames = Math.ceil(inputData.length / 128)` (for naturals,
`(len + 127) / 128`); render `numFrames` frames in order with the current
parameter snapshot; concatenate (each frame is written at offset `i * 128`
of a `numFrames * 128` buffer, i.e. joined in order); trim with
`slice(0, inputData.length)`. -/
def processOffline {σ : Type} (m : WasmModule σ) (wasmInitialized : Bool)
    (store : GranularState) (s : σ) : Option (Except String (List ℚ × σ)) :=
  match store.granularInstance, store.audioBuffer, wasmInitialized with
  | some inst, some buffer, true =>
    let inputData := audioBufferToFloat32Array buffer
    let numFrames := (inputData.length + 127) / 128
    let params := getGranularParams store
    some (match renderLoop m inst params numFrames s with
      | .error e => .error e
      | .ok (frames, s1) => .ok (frames.flatten.take inputData.length, s1))
  | _, _, _ => none

/-- State of the AudioWorklet `GranularProcessor`: the queue of
pre-processed frames pushed from the main thread. -/
structure ProcState where
  outputBuffer : List (List ℚ)
  deriving DecidableEq

/-- `GranularProcessor.process`: one real-time callback.  The output channel
has `frameLength` slots.  If the frame queue is non-empty, shift the first
queued frame, copy `min(frameLength, frame.length)` samples and zero-fill
the remainder; otherwise copy the input channel through
(`inputChannel[i] || 0`, missing samples read as 0). -/
def GranularProcessor.process (frameLength : ℕ) (inputChannel : List ℚ)
    (st : ProcState) : List ℚ × ProcState :=
  match st.outputBuffer with
  | processedFrame :: rest =>
    let copyLength := min frameLength processedFrame.length
    ((List.range frameLength).map fun i =>
        if i < copyLength then processedFrame.getD i 0 else 0,
     { outputBuffer := rest })
  | [] =>
    ((List.range frameLength).map (fun i => inputChannel.getD i 0), st)

/-- Events reaching the worklet: a `processedFrame` message from the main
thread (enqueued by the `onmessage` handler) or a real-time callback tick
carrying the live input channel. -/
inductive WorkletEvent where
  | processedFrame (frame : List ℚ)
  | tick (inputChannel : List ℚ)

/-- One worklet event: a `processedFrame` message pushes the frame onto the
queue; a tick runs `process` with the 128-slot output channel. -/
def workletStep (st : ProcState) : WorkletEvent → ProcState
  | .processedFrame f => { outputBuffer := st.outputBuffer ++ [f] }
  | .tick inputChannel => (GranularProcessor.process 128 inputChannel st).2

/-- Run the worklet over a sequence of events. -/
def workletRun (st : ProcState) : List WorkletEvent → ProcState
  | [] => st
  | e :: es => workletRun (workletStep st e) es

/-- The frames a single event dequeues: a tick consumes the queue head when
there is one, a message consumes nothing. -/
def dequeuedByStep (st : ProcState) : WorkletEvent → List (List ℚ)
  | .processedFrame _ => []
  | .tick _ => st.outputBuffer.take 1

/-- All frames dequeued over a run, in consumption order. -/
def workletDequeued (st : ProcState) : List WorkletEvent → List (List ℚ)
  | [] => []
  | e :: es => dequeuedByStep st e ++ workletDequeued (workletStep st e) es

/-- All frames enqueued over a run, in arrival order. -/
def workletEnqueued : List WorkletEvent → List (List ℚ)
  | [] => []
  | .processedFrame f :: es => f :: workletEnqueued es
  | .tick _ :: es => workletEnqueued es

/-- Canvas width of the `Waveform` component. -/
def canvasWidth : ℕ := 1400

/-- `MARKER_HIT_RADIUS` constant of the `Waveform` component. -/
def MARKER_HIT_RADIUS : ℕ := 8

/-- `SELECTION_HIT_MARGIN` constant of the `Waveform` component. -/
def SELECTION_HIT_MARGIN : ℕ := 5

/-- Drag state of the `Waveform` selection editor. -/
inductive DragState where
  | none
  | startMarker
  | endMarker
  | selection (startOffsetSamples : ℚ)
  deriving DecidableEq

/-- State of the selection editor: drag mode, `isDragging` flag, and the two
selection bounds held in the store. -/
structure EditorState where
  dragState : DragState
  isDragging : Bool
  selectionStartSampleIx : ℚ
  selectionEndSampleIx : ℚ
  deriving DecidableEq

/-- `sampleToPixel`: `Math.floor((sampleIx / data.length) * width)`,
0 on an empty buffer. -/
def sampleToPixel (len : ℕ) (sampleIx : ℚ) : ℚ :=
  if len = 0 then 0
  else ((⌊sampleIx / (len : ℚ) * (canvasWidth : ℚ)⌋ : ℤ) : ℚ)

/-- `pixelToSample`: clamp the pixel to `[0, width]`, then
`Math.floor((clampedX / width) * data.length)`; 0 on an empty buffer. -/
def pixelToSample (len : ℕ) (pixelX : ℚ) : ℚ :=
  if len = 0 then 0
  else
    let clampedX := max 0 (min (canvasWidth : ℚ) pixelX)
    ((⌊clampedX / (canvasWidth : ℚ) * (len : ℚ)⌋ : ℤ) : ℚ)

/-- `getDragType`: marker hit test within `MARKER_HIT_RADIUS` pixels, then
range hit test within `SELECTION_HIT_MARGIN` pixels, else no drag. -/
def getDragType (len : ℕ) (st : EditorState) (x : ℚ) : DragState :=
  let startX := sampleToPixel len st.selectionStartSampleIx
  let endX := sampleToPixel len st.selectionEndSampleIx
  if |x - startX| < (MARKER_HIT_RADIUS : ℚ) then .startMarker
  else if |x - endX| < (MARKER_HIT_RADIUS : ℚ) then .endMarker
  else if startX - (SELECTION_HIT_MARGIN : ℚ) ≤ x ∧
          x ≤ endX + (SELECTION_HIT_MARGIN : ℚ) then .selection 0
  else .none

/-- `handleMouseDown`: enter the drag state `getDragType` chooses (capturing
`startOffsetSamples = clickSample - selectionStart` for a range drag);
on a click outside any region, set whichever bound is pixel-nearer to the
clicked sample and stay out of any drag. -/
def handleMouseDown (len : ℕ) (st : EditorState) (x : ℚ) : EditorState :=
  match getDragType len st x with
  | .selection _ =>
    let clickSample := pixelToSample len x
    let startOffsetSamples := clickSample - st.selectionStartSampleIx
    { st with dragState := .selection startOffsetSamples, isDragging := true }
  | .startMarker => { st with dragState := .startMarker, isDragging := true }
  | .endMarker => { st with dragState := .endMarker, isDragging := true }
  | .none =>
    let sampleIx := pixelToSample len x
    if |x - sampleToPixel len st.selectionStartSampleIx| <
        |x - sampleToPixel len st.selectionEndSampleIx| then
      { st with selectionStartSampleIx := sampleIx }
    else
      { st with selectionEndSampleIx := sampleIx }

/-- `handleMouseMove`: no-op unless a drag is active; otherwise move the
dragged marker (with the min/max clamps of the source) or shift the whole
range, clamping at the buffer edges exactly as the source does. -/
def handleMouseMove (len : ℕ) (st : EditorState) (x : ℚ) : EditorState :=
  if ¬st.isDragging ∨ st.dragState = DragState.none then st
  else
    let sampleIx := pixelToSample len x
    match st.dragState with
    | .startMarker =>
      let clamped := min sampleIx (st.selectionEndSampleIx - 1)
      { st with selectionStartSampleIx := max 0 clamped }
    | .endMarker =>
      let clamped := max sampleIx (st.selectionStartSampleIx + 1)
      { st with selectionEndSampleIx := min (len : ℚ) clamped }
    | .selection startOffsetSamples =>
      let newStart := sampleIx - startOffsetSamples
      let newEnd := newStart + (st.selectionEndSampleIx - st.selectionStartSampleIx)
      if newStart < 0 then
        let diff := 0 - newStart
        { st with selectionStartSampleIx := 0
                  selectionEndSampleIx :=
                    min (len : ℚ) (st.selectionEndSampleIx + diff) }
      else if newEnd > (len : ℚ) then
        let diff := newEnd - (len : ℚ)
        { st with selectionEndSampleIx := (len : ℚ)
                  selectionStartSampleIx :=
                    max 0 (st.selectionStartSampleIx - diff) }
      else
        { st with selectionStartSampleIx := newStart
                  selectionEndSampleIx := newEnd }
    | .none => st

/-- `handleMouseUp`: unconditionally leave any drag state. -/
def handleMouseUp (st : EditorState) : EditorState :=
  { st with dragState := .none, isDragging := false }

/-- `handleMouseLeave`: unconditionally leave any drag state. -/
def handleMouseLeave (st : EditorState) : EditorState :=
  { st with dragState := .none, isDragging := false }

/-- Pointer events driving the selection editor. -/
inductive PointerEvent where
  | down (x : ℚ)
  | move (x : ℚ)
  | up
  | leave

/-- One selection-editor transition. -/
def editorStep (len : ℕ) (st : EditorState) : PointerEvent → EditorState
  | .down x => handleMouseDown len st x
  | .move x => handleMouseMove len st x
  | .up => handleMouseUp st
  | .leave => handleMouseLeave st

/-- The selection invariant of the spec:
`0 ≤ selectionStart < selectionEnd ≤ waveformLength`. -/
def selectionInvariant (len : ℕ) (st : EditorState) : Prop :=
  0 ≤ st.selectionStartSampleIx ∧
  st.selectionStartSampleIx < st.selectionEndSampleIx ∧
  st.selectionEndSampleIx ≤ (len : ℚ)

/-- Whether a pointer event takes the outside-click "new selection point"
branch of `handleMouseDown` (its `getDragType` comes back empty). -/
def triggersNewSelection (len : ℕ) (st : EditorState) : PointerEvent → Prop
  | .down x => getDragType len st x = DragState.none
  | _ => False

/-- A concrete engine model used to instantiate theorems with hypotheses:
every entry point returns pointer 0 and memory reads are silent. -/
def testModule : WasmModule Unit where
  get_granular_waveform_ptr := fun s _ _ => (0, s)
  render_granular := fun s _ _ => (0, s)
  free_granular_instance := fun s _ => s
  memF32 := fun _ _ => 0
  memWriteF32 := fun s _ _ => s

/-- A concrete store: a live engine instance and a mono 1000-sample buffer
loaded through `setAudioBuffer`. -/
def testStore1000 : GranularState :=
  setAudioBuffer (setGranularInstance initialState (some ⟨some 1⟩))
    (some ⟨[List.replicate 1000 0]⟩)

/-! ## Helper lemmas -/

/-- A `renderFrame` call on a live instance succeeds, and the produced frame
has exactly 128 samples. -/
lemma renderFrame_ok {σ : Type} (m : WasmModule σ) (inst : GranularInstance)
    (p : ℕ) (hp : inst.instancePtr = some p) (s : σ) (params : GranularParams) :
    GranularInstance.renderFrame m inst s params =
      .ok ((List.range 128).map
            (fun i => m.memF32 (m.render_granular s p (renderGranularArgs params)).2
              ((m.render_granular s p (renderGranularArgs params)).1 / 4 + i)),
          (m.render_granular s p (renderGranularArgs params)).2) := by
  simp only [GranularInstance.renderFrame, hp]

/-- The render loop on a live instance succeeds, makes exactly `n` calls and
collects `n` frames of 128 samples each. -/
lemma renderLoop_ok {σ : Type} (m : WasmModule σ) (inst : GranularInstance)
    (params : GranularParams) (p : ℕ) (hp : inst.instancePtr = some p) :
    ∀ (n : ℕ) (s : σ), ∃ frames s1,
      renderLoop m inst params n s = .ok (frames, s1) ∧
      frames.length = n ∧ ∀ f ∈ frames, f.length = 128 := by
  intro n
  induction n with
  | zero => exact fun s => ⟨[], s, rfl, rfl, by simp⟩
  | succ k ih =>
    intro s
    obtain ⟨frames, s1, hloop, hlen, hall⟩ :=
      ih (m.render_granular s p (renderGranularArgs params)).2
    refine ⟨((List.range 128).map
        (fun i => m.memF32 (m.render_granular s p (renderGranularArgs params)).2
          ((m.render_granular s p (renderGranularArgs params)).1 / 4 + i))) :: frames,
      s1, ?_, by simp [hlen], ?_⟩
    · rw [renderLoop, renderFrame_ok m inst p hp]
      simp [hloop]
    · intro f hf
      rcases List.mem_cons.mp hf with h | h
      · simp [h]
      · exact hall f h

/-- Flattening a list of 128-sample frames yields `count * 128` samples. -/
lemma flatten_length_of_frames : ∀ (L : List (List ℚ)),
    (∀ f ∈ L, f.length = 128) → L.flatten.length = L.length * 128 := by
  intro L
  induction L with
  | nil => simp
  | cons f fs ih =>
    intro h
    simp only [List.flatten_cons, List.length_append, List.length_cons]
    rw [ih (fun g hg => h g (List.mem_cons_of_mem f hg)),
      h f (List.mem_cons_self f fs)]
    ring

/-- Ceiling division bound: `n ≤ ceil(n / 128) * 128`. -/
lemma le_ceil_mul_128 (n : ℕ) : n ≤ ((n + 127) / 128) * 128 := by
  have h1 := Nat.div_add_mod (n + 127) 128
  have h2 : (n + 127) % 128 < 128 := Nat.mod_lt _ (by norm_num)
  omega

/-- Evaluate a concrete floor via its characteristic inequalities. -/
lemma floorEval {a : ℚ} {z : ℤ} (h1 : (z : ℚ) ≤ a) (h2 : a < z + 1) : ⌊a⌋ = z :=
  Int.floor_eq_iff.mpr ⟨h1, h2⟩

/-- A real-time tick consumes exactly the head of the frame queue: the queue
after `process` is the tail of the queue before it. -/
lemma process_queue_tail (frameLength : ℕ) (inputChannel : List ℚ)
    (st : ProcState) :
    (GranularProcessor.process frameLength inputChannel st).2.outputBuffer =
      st.outputBuffer.tail := by
  rcases st with ⟨q⟩
  cases q <;> rfl

/-- A mono buffer passes through the downmix unchanged. -/
lemma audioBufferToFloat32Array_mono (xs : List ℚ) :
    audioBufferToFloat32Array ⟨[xs]⟩ = xs := by
  simp [audioBufferToFloat32Array, AudioBufferModel.numberOfChannels,
    AudioBufferModel.getChannelData]

/-- Reading every index of a list back with `getD` reproduces the list. -/
lemma map_range_getD (xs : List ℚ) :
    (List.range xs.length).map (fun i => xs.getD i 0) = xs := by
  apply List.ext_getElem (by simp)
  intro i h1 h2
  simp [List.getD_eq_getElem?_getD, List.getElem?_eq_getElem h2]

/-- Every `handleMouseMove` transition preserves the selection invariant
(all three drag modes, including both edge clamps of a range drag). -/
lemma handleMouseMove_preserves_invariant (len : ℕ) (st : EditorState) (x : ℚ)
    (hinv : selectionInvariant len st) :
    selectionInvariant len (handleMouseMove len st x) := by
  obtain ⟨h0, hlt, hle⟩ := hinv
  have hlen : (0 : ℚ) < (len : ℚ) := lt_of_lt_of_le (lt_of_le_of_lt h0 hlt) hle
  rw [handleMouseMove]
  split
  · exact ⟨h0, hlt, hle⟩
  · split
    · -- start marker: new start = max 0 (min pointerSample (end - 1))
      simp only [selectionInvariant]
      refine ⟨le_max_left 0 _, ?_, hle⟩
      refine max_lt (lt_of_le_of_lt h0 hlt) ?_
      exact lt_of_le_of_lt (min_le_right _ _) (by linarith)
    · -- end marker: new end = min len (max pointerSample (start + 1))
      simp only [selectionInvariant]
      refine ⟨h0, ?_, min_le_left _ _⟩
      exact lt_min (lt_of_lt_of_le hlt hle)
        (lt_of_lt_of_le (lt_add_one _) (le_max_right _ _))
    · -- range drag
      dsimp only
      split
      · -- left clamp: start 0, end grows
        simp only [selectionInvariant]
        refine ⟨le_refl 0, ?_, min_le_left _ _⟩
        refine lt_min hlen ?_
        have hpos : (0 : ℚ) < st.selectionEndSampleIx := lt_of_le_of_lt h0 hlt
        linarith
      · split
        · -- right clamp: end len, start shrinks
          simp only [selectionInvariant]
          refine ⟨le_max_left 0 _, ?_, le_refl _⟩
          refine max_lt hlen ?_
          have hsl : st.selectionStartSampleIx < (len : ℚ) :=
            lt_of_lt_of_le hlt hle
          linarith
        · -- no clamp: width preserved
          simp only [selectionInvariant]
          exact ⟨by linarith, by linarith, by linarith⟩
    · exact ⟨h0, hlt, hle⟩

/-- A `handleMouseDown` that enters a drag state (its hit test does not come
back empty) leaves the selection bounds unchanged, hence preserves the
invariant. -/
lemma handleMouseDown_preserves_invariant (len : ℕ) (st : EditorState) (x : ℚ)
    (hinv : selectionInvariant len st)
    (hdt : getDragType len st x ≠ DragState.none) :
    selectionInvariant len (handleMouseDown len st x) := by
  obtain ⟨h0, hlt, hle⟩ := hinv
  unfold handleMouseDown
  generalize hg : getDragType len st x = dt
  cases dt
  · exact absurd hg hdt
  · exact ⟨h0, hlt, hle⟩
  · exact ⟨h0, hlt, hle⟩
  · exact ⟨h0, hlt, hle⟩

/-! ## Claim theorems -/

/-- C9: whenever a new (non-null) waveform buffer of length `len` is loaded
into the store, the selection is reset to the full new range:
`selectionStart` becomes 0 and `selectionEnd` becomes `len`. -/
theorem setAudioBuffer_resets_selection (s : GranularState) (b : AudioBufferModel) :
    (setAudioBuffer s (some b)).selectionStartSampleIx = 0 ∧
    (setAudioBuffer s (some b)).selectionEndSampleIx = (b.length : ℚ) ∧
    (setAudioBuffer s (some b)).audioBuffer = some b :=
  ⟨rfl, rfl, rfl⟩

/-- C10 (counterexample): the snapshot `getGranularParams` builds, laid out
in the positional order it is passed to the engine's `render_granular`,
has 17 parameter values — not 18 as the claim states. -/
theorem getGranularParams_field_count :
    (renderGranularArgs (getGranularParams initialState)).length = 17 ∧
    (renderGranularArgs (getGranularParams initialState)).length ≠ 18 :=
  ⟨rfl, by decide⟩

/-- C10 (amended): the snapshot contains exactly the 17 engine parameter
fields; two store states agreeing on those 17 fields — however they differ
in `density` or the playback/handle fields — yield equal snapshots. -/
theorem getGranularParams_ignores_other_fields (s1 s2 : GranularState)
    (h1 : s1.selectionStartSampleIx = s2.selectionStartSampleIx)
    (h2 : s1.selectionEndSampleIx = s2.selectionEndSampleIx)
    (h3 : s1.grainSize = s2.grainSize)
    (h4 : s1.voice1FilterCutoff = s2.voice1FilterCutoff)
    (h5 : s1.voice2FilterCutoff = s2.voice2FilterCutoff)
    (h6 : s1.linearSlopeLength = s2.linearSlopeLength)
    (h7 : s1.slopeLinearity = s2.slopeLinearity)
    (h8 : s1.voice1MovementSamplesPerSample = s2.voice1MovementSamplesPerSample)
    (h9 : s1.voice2MovementSamplesPerSample = s2.voice2MovementSamplesPerSample)
    (h10 : s1.voice1SampleSpeedRatio = s2.voice1SampleSpeedRatio)
    (h11 : s1.voice2SampleSpeedRatio = s2.voice2SampleSpeedRatio)
    (h12 : s1.voice1SamplesBetweenGrains = s2.voice1SamplesBetweenGrains)
    (h13 : s1.voice2SamplesBetweenGrains = s2.voice2SamplesBetweenGrains)
    (h14 : s1.voice1Gain = s2.voice1Gain)
    (h15 : s1.voice2Gain = s2.voice2Gain)
    (h16 : s1.voice1GrainStartRandomnessSamples = s2.voice1GrainStartRandomnessSamples)
    (h17 : s1.voice2GrainStartRandomnessSamples = s2.voice2GrainStartRandomnessSamples) :
    getGranularParams s1 = getGranularParams s2 := by
  rw [getGranularParams, getGranularParams, h1, h2, h3, h4, h5, h6, h7, h8,
    h9, h10, h11, h12, h13, h14, h15, h16, h17]

/-- C10 (witness): mutating `density` and `isPlaying` leaves the engine
snapshot unchanged. -/
theorem getGranularParams_ignores_other_fields_witness :
    getGranularParams initialState =
      getGranularParams (setDensity (setIsPlaying initialState true) 99) ∧
    (setDensity (setIsPlaying initialState true) 99).density ≠ initialState.density :=
  ⟨getGranularParams_ignores_other_fields initialState
      (setDensity (setIsPlaying initialState true) 99)
      rfl rfl rfl rfl rfl rfl rfl rfl rfl rfl rfl rfl rfl rfl rfl rfl rfl,
    by norm_num [setDensity, setIsPlaying, initialState]⟩

/-- C5 (counterexample): calling `free` on an already-freed handle does not
fail with an "instance freed" condition — it silently succeeds as a no-op,
contrary to the claim that every operation on a freed handle fails. -/
theorem free_after_free_silently_succeeds :
    GranularInstance.free testModule ⟨none⟩ () = .ok (⟨none⟩, ()) := rfl

/-- C5 (amended): after an instance is freed, waveform upload and frame
render fail with the explicit "Granular instance has been freed" error, but
`free` itself silently no-ops (it is idempotent, returning the handle and
engine state unchanged). -/
theorem freed_handle_operations {σ : Type} (m : WasmModule σ)
    (inst : GranularInstance) (s : σ) (waveform : List ℚ)
    (params : GranularParams) (hfreed : inst.instancePtr = none) :
    GranularInstance.setWaveform m inst s waveform =
      .error "Granular instance has been freed" ∧
    GranularInstance.renderFrame m inst s params =
      .error "Granular instance has been freed" ∧
    GranularInstance.free m inst s = .ok (inst, s) := by
  refine ⟨?_, ?_, ?_⟩ <;>
    simp only [GranularInstance.setWaveform, GranularInstance.renderFrame,
      GranularInstance.free, hfreed]

/-- C5 (witness): the amended statement at a concrete freed handle. -/
theorem freed_handle_operations_witness :
    GranularInstance.setWaveform testModule ⟨none⟩ () [1] =
      .error "Granular instance has been freed" ∧
    GranularInstance.renderFrame testModule ⟨none⟩ () (getGranularParams initialState) =
      .error "Granular instance has been freed" ∧
    GranularInstance.free testModule ⟨none⟩ () = .ok (⟨none⟩, ()) :=
  freed_handle_operations testModule ⟨none⟩ () [1] (getGranularParams initialState) rfl

/-- C4 (counterexample): with an empty frame queue and a non-silent input
channel, the real-time callback does not emit an all-zero frame — it passes
the input through (first output sample is 1, not 0). -/
theorem process_underrun_not_silence :
    ¬ (∀ q ∈ (GranularProcessor.process 128 (List.replicate 128 (1 : ℚ)) ⟨[]⟩).1,
        q = 0) := by
  intro h
  have h1 : (1 : ℚ) ∈
      (GranularProcessor.process 128 (List.replicate 128 (1 : ℚ)) ⟨[]⟩).1 := by
    simp only [GranularProcessor.process, List.mem_map]
    exact ⟨0, by simp, by rw [List.replicate_succ]; rfl⟩
  exact absurd (h 1 h1) (by norm_num)

/-- C4 (amended): each real-time callback produces an output frame of
exactly 128 samples; when the frame queue is empty it copies the input
channel through (missing input samples read as 0) instead of blocking or
throwing — silence is emitted only when the input itself is silent. -/
theorem process_frame_length_and_underrun (inputChannel : List ℚ)
    (st : ProcState) :
    (GranularProcessor.process 128 inputChannel st).1.length = 128 ∧
    (st.outputBuffer = [] →
      (GranularProcessor.process 128 inputChannel st).1 =
        (List.range 128).map fun i => inputChannel.getD i 0) := by
  constructor
  · rcases st with ⟨q⟩
    cases q <;> simp [GranularProcessor.process]
  · intro h
    rcases st with ⟨q⟩
    simp only at h
    subst h
    rfl

/-- C4 (witness): the amended statement at a concrete underrun state. -/
theorem process_frame_length_and_underrun_witness :
    (GranularProcessor.process 128 [(5 : ℚ)] ⟨[]⟩).1.length = 128 ∧
    (GranularProcessor.process 128 [(5 : ℚ)] ⟨[]⟩).1 =
      (List.range 128).map (fun i => [(5 : ℚ)].getD i 0) :=
  ⟨(process_frame_length_and_underrun [(5 : ℚ)] ⟨[]⟩).1,
   (process_frame_length_and_underrun [(5 : ℚ)] ⟨[]⟩).2 rfl⟩

/-- C7: the real-time frame queue is FIFO — over any event sequence, the
frames dequeued by ticks, in consumption order, followed by the frames
still queued, are exactly the initially queued frames followed by the
enqueued frames in arrival order (so delivery order equals enqueue order);
and each callback consumes at most one queued frame: the queue after a tick
is the tail of the queue before it. -/
theorem workletQueue_fifo_and_single_consumption :
    (∀ (st : ProcState) (es : List WorkletEvent),
      workletDequeued st es ++ (workletRun st es).outputBuffer =
        st.outputBuffer ++ workletEnqueued es) ∧
    (∀ (inputChannel : List ℚ) (st : ProcState),
      (GranularProcessor.process 128 inputChannel st).2.outputBuffer =
        st.outputBuffer.tail) := by
  constructor
  · intro st es
    induction es generalizing st with
    | nil => simp [workletDequeued, workletRun, workletEnqueued]
    | cons e es ih =>
      cases e with
      | processedFrame f =>
        simp only [workletDequeued, dequeuedByStep, workletRun, workletStep,
          workletEnqueued, List.nil_append]
        rw [ih]
        simp
      | tick inputChannel =>
        simp only [workletDequeued, dequeuedByStep, workletRun, workletStep,
          workletEnqueued]
        rw [List.append_assoc, ih, process_queue_tail, ← List.drop_one,
          ← List.append_assoc, List.take_append_drop]
  · intro inputChannel st
    exact process_queue_tail 128 inputChannel st

/-- C1: for a loaded waveform buffer and a live engine instance, the offline
batch renderer computes `numFrames = ceil(N / 128)` where `N` is the
downmixed input length, calls `renderFrame` exactly `numFrames` times in
order (collecting `numFrames` frames of 128 samples each), concatenates
them into `numFrames * 128` samples, and trims to exactly `N` samples, so
the published processed buffer has length exactly `N`. -/
theorem processOffline_output_length {σ : Type} (m : WasmModule σ)
    (store : GranularState) (inst : GranularInstance)
    (buffer : AudioBufferModel) (p : ℕ) (s : σ)
    (hinst : store.granularInstance = some inst)
    (hptr : inst.instancePtr = some p)
    (hbuf : store.audioBuffer = some buffer) :
    ∃ (frames : List (List ℚ)) (s1 : σ),
      renderLoop m inst (getGranularParams store)
          (((audioBufferToFloat32Array buffer).length + 127) / 128) s =
        .ok (frames, s1) ∧
      frames.length = ((audioBufferToFloat32Array buffer).length + 127) / 128 ∧
      (∀ f ∈ frames, f.length = 128) ∧
      frames.flatten.length =
        (((audioBufferToFloat32Array buffer).length + 127) / 128) * 128 ∧
      processOffline m true store s =
        some (.ok (frames.flatten.take (audioBufferToFloat32Array buffer).length,
          s1)) ∧
      (frames.flatten.take (audioBufferToFloat32Array buffer).length).length =
        (audioBufferToFloat32Array buffer).length := by
  obtain ⟨frames, s1, hloop, hlen, hall⟩ := renderLoop_ok m inst
    (getGranularParams store) p hptr
    (((audioBufferToFloat32Array buffer).length + 127) / 128) s
  have hfl : frames.flatten.length =
      (((audioBufferToFloat32Array buffer).length + 127) / 128) * 128 := by
    rw [flatten_length_of_frames frames hall, hlen]
  refine ⟨frames, s1, hloop, hlen, hall, hfl, ?_, ?_⟩
  · simp only [processOffline, hinst, hbuf]
    rw [hloop]
  · rw [List.length_take, hfl]
    exact Nat.min_eq_left (le_ceil_mul_128 _)

/-- C1 (witness): the scenario of the claim — a mono 1000-sample buffer is
rendered in `ceil(1000/128) = 8` frames and the trimmed output has length
exactly 1000. -/
theorem processOffline_output_length_witness :
    ((1000 + 127) / 128 : ℕ) = 8 ∧
    ∃ (out : List ℚ) (s1 : Unit),
      processOffline testModule true testStore1000 () = some (.ok (out, s1)) ∧
      out.length = 1000 := by
  refine ⟨by norm_num, ?_⟩
  obtain ⟨frames, s1, _, _, _, _, hpo, hlen⟩ :=
    processOffline_output_length testModule testStore1000 ⟨some 1⟩
      ⟨[List.replicate 1000 0]⟩ 1 () rfl rfl rfl
  refine ⟨_, s1, hpo, ?_⟩
  rw [hlen, audioBufferToFloat32Array_mono]
  exact List.length_replicate _ _

/-- C8 (counterexample): for a 3-channel buffer with samples 0, 0 and 3, the
code produces sample `(0 + 0) / 2 = 0`, while the claimed all-channel
average is `(0 + 0 + 3) / 3 = 1`: the downmix is not per-sample averaging
over all channels. -/
theorem downmix_not_all_channel_average :
    audioBufferToFloat32Array ⟨[[0], [0], [3]]⟩ = [0] ∧
    audioBufferToMonoSpec ⟨[[0], [0], [3]]⟩ = [1] := by
  constructor
  · simp [audioBufferToFloat32Array, AudioBufferModel.numberOfChannels,
      AudioBufferModel.getChannelData, List.range_succ]
  · simp [audioBufferToMonoSpec, AudioBufferModel.numberOfChannels,
      AudioBufferModel.getChannelData, AudioBufferModel.length,
      List.range_succ]

/-- C8 (amended): a mono buffer is passed through unchanged, and for buffers
with at most two channels the downmix equals per-sample averaging over all
channels; with three or more channels the code averages only the first two
(see the counterexample). -/
theorem downmix_matches_average_upto_two_channels (buffer : AudioBufferModel)
    (hch : buffer.numberOfChannels ≤ 2) :
    audioBufferToFloat32Array buffer = audioBufferToMonoSpec buffer := by
  rcases buffer with ⟨channels⟩
  match channels with
  | [] => rfl
  | [c0] =>
    show audioBufferToFloat32Array ⟨[c0]⟩ = audioBufferToMonoSpec ⟨[c0]⟩
    rw [audioBufferToFloat32Array_mono]
    simp only [audioBufferToMonoSpec, AudioBufferModel.numberOfChannels,
      AudioBufferModel.length, AudioBufferModel.getChannelData,
      List.getD_cons_zero, List.length_cons, List.length_nil, List.map_cons,
      List.map_nil, List.sum_cons, List.sum_nil, add_zero, zero_add,
      Nat.cast_one, div_one]
    exact (map_range_getD c0).symm
  | [c0, c1] =>
    simp only [audioBufferToFloat32Array, audioBufferToMonoSpec,
      AudioBufferModel.numberOfChannels, AudioBufferModel.length,
      AudioBufferModel.getChannelData, List.getD_cons_zero,
      List.getD_cons_succ, List.length_cons, List.length_nil, List.map_cons,
      List.map_nil, List.sum_cons, List.sum_nil, add_zero]
    norm_num
  | c0 :: c1 :: c2 :: rest =>
    exact absurd hch (by
      simp [AudioBufferModel.numberOfChannels])

/-- C8 (witness): the amended statement at a concrete stereo buffer, whose
downmix is the channel average `[2, 4]`. -/
theorem downmix_matches_average_witness :
    audioBufferToFloat32Array ⟨[[(1 : ℚ), 3], [3, 5]]⟩ =
      audioBufferToMonoSpec ⟨[[(1 : ℚ), 3], [3, 5]]⟩ ∧
    audioBufferToFloat32Array ⟨[[(1 : ℚ), 3], [3, 5]]⟩ = [2, 4] := by
  refine ⟨downmix_matches_average_upto_two_channels _ (by norm_num
    [AudioBufferModel.numberOfChannels]), ?_⟩
  simp [audioBufferToFloat32Array, AudioBufferModel.numberOfChannels,
    AudioBufferModel.getChannelData, List.range_succ]
  norm_num

/-- C2: evaluation of the range-drag transition at the claim's scenario.
Selection `[0, 200]` on a 1000-sample buffer, range drag with captured
offset 50, pointer at pixel 0 (pointer sample 0, proposed start `-50`):
the code clamps start to 0 but sets the end to
`min(1000, oldEnd + 50) = 250` — the selection width becomes 250, not the
claimed preserved 200 (the clamp branch adds the deficit to the *current*
end instead of the proposed end). -/
theorem rangeDrag_left_clamp_grows_width :
    (handleMouseMove 1000 ⟨.selection 50, true, 0, 200⟩ 0).selectionStartSampleIx
        = 0 ∧
    (handleMouseMove 1000 ⟨.selection 50, true, 0, 200⟩ 0).selectionEndSampleIx
        = 250 ∧
    (handleMouseMove 1000 ⟨.selection 50, true, 0, 200⟩ 0).selectionEndSampleIx -
      (handleMouseMove 1000 ⟨.selection 50, true, 0, 200⟩ 0).selectionStartSampleIx
        ≠ 200 := by
  have hps : pixelToSample 1000 0 = 0 := by
    rw [pixelToSample]; norm_num [canvasWidth]
  have heval :
      handleMouseMove 1000 ⟨.selection 50, true, 0, 200⟩ 0 =
        ⟨.selection 50, true, 0, 250⟩ := by
    rw [handleMouseMove]
    norm_num [hps]
    decide
  rw [heval]
  norm_num

/-- C3 (counterexample): from the valid state `selection [100, 105]` on a
14000-sample buffer (both markers render at pixel 10), a pointer-down at
pixel 0 is outside every hit region, the end marker is not strictly
pixel-nearer, so the code sets `selectionEnd := pixelToSample 0 = 0`,
producing `start = 100 > end = 0`: the invariant
`0 ≤ start < end ≤ len` is violated by this transition. -/
theorem newSelectionClick_violates_invariant :
    selectionInvariant 14000 ⟨.none, false, 100, 105⟩ ∧
    ¬ selectionInvariant 14000
        (editorStep 14000 ⟨.none, false, 100, 105⟩ (.down 0)) := by
  constructor
  · exact ⟨by norm_num, by norm_num, by norm_num⟩
  · have h1 : sampleToPixel 14000 (100 : ℚ) = 10 := by
      rw [sampleToPixel]; norm_num [canvasWidth]
    have h2 : sampleToPixel 14000 (105 : ℚ) = 10 := by
      rw [sampleToPixel]; norm_num [canvasWidth]
    have h3 : pixelToSample 14000 0 = 0 := by
      rw [pixelToSample]; norm_num [canvasWidth]
    have hdt : getDragType 14000 ⟨.none, false, 100, 105⟩ 0 = DragState.none := by
      rw [getDragType]
      rw [h1, h2]
      norm_num [MARKER_HIT_RADIUS, SELECTION_HIT_MARGIN]
    have heval :
        handleMouseDown 14000 ⟨.none, false, 100, 105⟩ 0 =
          ⟨.none, false, 100, 0⟩ := by
      unfold handleMouseDown
      rw [hdt]
      rw [h1, h2, h3]
      norm_num
    intro hcon
    have hlt : (handleMouseDown 14000 ⟨.none, false, 100, 105⟩ 0).selectionStartSampleIx <
        (handleMouseDown 14000 ⟨.none, false, 100, 105⟩ 0).selectionEndSampleIx :=
      hcon.2.1
    rw [heval] at hlt
    norm_num at hlt

/-- C3 (amended): the invariant `0 ≤ selectionStart < selectionEnd ≤ len`
is preserved by every selection-editor transition except the outside-click
"new selection point" gesture (a pointer-down whose hit test comes back
empty): it holds after every pointer-move, pointer-up, pointer-leave, and
every pointer-down that enters a drag state.  The excluded gesture can
invert the bounds (see the counterexample). -/
theorem editorStep_preserves_invariant (len : ℕ) (st : EditorState)
    (e : PointerEvent) (hinv : selectionInvariant len st)
    (hnot : ¬ triggersNewSelection len st e) :
    selectionInvariant len (editorStep len st e) := by
  cases e with
  | down x =>
    exact handleMouseDown_preserves_invariant len st x hinv hnot
  | move x =>
    exact handleMouseMove_preserves_invariant len st x hinv
  | up =>
    exact ⟨hinv.1, hinv.2.1, hinv.2.2⟩
  | leave =>
    exact ⟨hinv.1, hinv.2.1, hinv.2.2⟩

/-- C3 (witness): the amended statement at a concrete dragging state and
move event. -/
theorem editorStep_preserves_invariant_witness :
    selectionInvariant 1000 ⟨.startMarker, true, 100, 900⟩ ∧
    selectionInvariant 1000
      (editorStep 1000 ⟨.startMarker, true, 100, 900⟩ (.move 100)) :=
  ⟨⟨by norm_num, by norm_num, by norm_num⟩,
   editorStep_preserves_invariant 1000 ⟨.startMarker, true, 100, 900⟩
     (.move 100) ⟨by norm_num, by norm_num, by norm_num⟩
     (by simp [triggersNewSelection])⟩

/-- C6: a pointer-move while dragging the start marker sets the new
selection start to `min(pointerSample, selectionEnd - 1)` clamped to be
`≥ 0`, and leaves every other field (in particular the end bound)
unchanged. -/
theorem startMarker_drag_clamps (len : ℕ) (st : EditorState) (x : ℚ)
    (hdrag : st.dragState = DragState.startMarker)
    (hdragging : st.isDragging = true) :
    handleMouseMove len st x =
      { st with selectionStartSampleIx := max 0 (min (pixelToSample len x) (st.selectionEndSampleIx - 1)) } := by
  rw [handleMouseMove, hdragging, hdrag]
  rw [if_neg (by simp)]

/-- C6 (witness): the claim's scenario — selection `[100, 900]` on a
1000-sample buffer, start-marker drag with the pointer at pixel 1330
(pointer sample 950): the start clamps to `899 = selectionEnd - 1`,
not 950. -/
theorem startMarker_drag_clamps_witness :
    pixelToSample 1000 1330 = 950 ∧
    (handleMouseMove 1000 ⟨.startMarker, true, 100, 900⟩ 1330).selectionStartSampleIx
      = 899 := by
  have hps : pixelToSample 1000 1330 = 950 := by
    rw [pixelToSample]; norm_num [canvasWidth]
  refine ⟨hps, ?_⟩
  rw [startMarker_drag_clamps 1000 ⟨.startMarker, true, 100, 900⟩ 1330 rfl rfl]
  show max 0 (min (pixelToSample 1000 1330) (900 - 1)) = 899
  rw [hps]
  norm_num

end Grainer
